import Mathlib

/-!
Shallow embedding of the MM-113/NPB-KBO-Analysis repository (two Python
source files, `NPBKBO.py` and `app.py`) and proofs about the claims of its
specification.

Python floats are modelled by exact rationals (`ℚ`); the arithmetic of the
engine involves no float-specific behaviour for in-range inputs, since every
divisor is floored to a positive constant.  Random sampling (numpy / scipy
draws) is modelled by explicit sampler oracles: one oracle function per draw
site, each receiving exactly the arguments the source passes to the
corresponding `np.random` / `scipy.stats` call and returning either the list
of drawn values or a failure (`Except Unit`), which models the exception a
sampler can raise (e.g. `np.random.normal` on a negative scale).
-/

/-- Constant from `NPBKBO.py` line 8 and `app.py` line 6. -/
def NPB_STD_DEV : ℚ := 2.3

/-- Constant from `NPBKBO.py` line 9 and `app.py` line 7. -/
def NPB_NB_R : ℚ := 9.0

/-- Constant from `NPBKBO.py` line 10 and `app.py` line 8. -/
def KBO_STD_DEV : ℚ := 2.8

/-- Constant from `NPBKBO.py` line 11 and `app.py` line 9. -/
def KBO_NB_R : ℚ := 7.5

/-- Constant from `NPBKBO.py` line 12 and `app.py` line 10. -/
def NUM_SIMULATIONS : ℕ := 100000

/-- Starting-pitcher record: the `pitcher` sub-dict of a team dict. -/
structure Pitcher where
  era : ℚ
  baa : ℚ
deriving DecidableEq

/-- Team record: the dict built by `input_team_data` (`NPBKBO.py` lines 40-53)
and by the Streamlit form (`app.py` lines 23-48).  The `name` and
`time_period` string fields are never read by the engine and are omitted. -/
structure TeamStat where
  time_avg : ℚ
  base_avg : ℚ
  allow : ℚ
  over_rate : ℚ
  team_batting : ℚ
  team_obp : ℚ
  pitcher : Pitcher
deriving DecidableEq

/-- The full-model per-side score.  `NPBKBO.py` lines 71-89 define this as a
closure capturing `league_factor`; `app.py` lines 52-65 define the identical
formula with `league_factor` as an explicit third parameter, which is the
form used here (the two are the same function). -/
def weighted_score (data : TeamStat) (opp_pitcher : Pitcher) (league_factor : ℚ) : ℚ :=
  let era_impact := (4.5 / max 0.01 opp_pitcher.era) * 0.7
  let baa_impact := (0.3 / max 0.001 opp_pitcher.baa) * 0.3
  let pitcher_factor := min 2.0 (era_impact + baa_impact)
  let batting_impact := (data.team_batting / max 0.001 0.270) * 0.5
  let obp_impact := (data.team_obp / max 0.001 0.340) * 0.5
  let base_score := data.time_avg * 0.5 + data.base_avg * 0.3 + data.allow * 0.2
  max 0.1 (base_score * league_factor *
    (0.8 + 0.2 * data.over_rate) *
    (1.0 / max 0.1 pitcher_factor) *
    (0.6 + batting_impact + obp_impact))

/-- The successful path of `calculate_scores` (`NPBKBO.py` lines 64-98): the
league factor is `0.95` exactly when the league string equals `"NPB"`, else
`1.05`; full mode scores each side with `weighted_score` against the
opposing pitcher, baseline mode uses only `time_avg` and `base_avg`.
The same computation appears in `app.py` lines 91-93 for the full model. -/
def calculate_scores (home away : TeamStat) (league : String) (include_effects : Bool) :
    ℚ × ℚ :=
  let league_factor : ℚ := if league = "NPB" then 0.95 else 1.05
  if include_effects then
    (weighted_score home away.pitcher league_factor,
     weighted_score away home.pitcher league_factor)
  else
    ((home.time_avg * 0.6 + home.base_avg * 0.4) * league_factor,
     (away.time_avg * 0.6 + away.base_avg * 0.4) * league_factor)

/-- Spec-side formula (§4.1 baseline mode), written from the claim's words:
`(time_avg*0.6 + base_avg*0.4) * league_multiplier`. -/
def spec_baseline_score (t : TeamStat) (league_multiplier : ℚ) : ℚ :=
  (t.time_avg * 0.6 + t.base_avg * 0.4) * league_multiplier

/-- Spec-side pitcher factor (§4.1), written from the claim's words:
`min(2.0, (4.5/max(era,0.01))*0.7 + (0.3/max(baa,0.001))*0.3)`. -/
def spec_pitcher_factor (p : Pitcher) : ℚ :=
  min 2.0 ((4.5 / max p.era 0.01) * 0.7 + (0.3 / max p.baa 0.001) * 0.3)

/-- Spec-side formula (§4.1 full mode), written from the claim's words:
`max(0.1, (time_avg*0.5 + base_avg*0.3 + allow*0.2) * league_multiplier *
(0.8 + 0.2*over_rate) * (1/max(pitcher_factor, 0.1)) *
(0.6 + 0.5*(team_batting/0.270) + 0.5*(team_obp/0.340)))` with the
pitcher factor taken from the opposing pitcher. -/
def spec_full_score (t : TeamStat) (opp : Pitcher) (league_multiplier : ℚ) : ℚ :=
  max 0.1 ((t.time_avg * 0.5 + t.base_avg * 0.3 + t.allow * 0.2) * league_multiplier *
    (0.8 + 0.2 * t.over_rate) *
    (1 / max (spec_pitcher_factor opp) 0.1) *
    (0.6 + 0.5 * (t.team_batting / 0.270) + 0.5 * (t.team_obp / 0.340)))

/-- Spec-side league multiplier (§4.1): 0.95 for NPB, 1.05 for KBO. -/
def spec_league_multiplier (league : String) : ℚ :=
  if league = "NPB" then 0.95 else 1.05

/-- Sampler oracles, one per draw site of the probability engine.  The six
draw calls (`NPBKBO.py` lines 112-124, `app.py` lines 73-81) each receive the
arguments the source passes to `np.random.normal`, `nbinom.rvs` and
`np.random.poisson`, and draw fresh values from the process-wide generator;
each site is therefore modelled by its own oracle function of exactly those
arguments.  A sampler may fail (`Except.error`), modelling the exception such
a call can raise (e.g. `np.random.normal` with a negative scale, or
`nbinom.rvs` with an out-of-range probability). -/
structure Samplers where
  normalHome : ℚ → ℚ → ℕ → Except Unit (List ℚ)
  normalAway : ℚ → ℚ → ℕ → Except Unit (List ℚ)
  nbHome : ℚ → ℚ → ℕ → Except Unit (List ℕ)
  nbAway : ℚ → ℚ → ℕ → Except Unit (List ℕ)
  poissonHome : ℚ → ℕ → Except Unit (List ℕ)
  poissonAway : ℚ → ℕ → Except Unit (List ℕ)

/-- Empirical exceedance percentage over rational samples:
`np.mean(xs > target) * 100`, i.e. the fraction of entries strictly greater
than `target`, times 100. -/
def meanGtQ (xs : List ℚ) (target : ℚ) : ℚ :=
  ((xs.countP fun x => decide (target < x) : ℕ) : ℚ) / (xs.length : ℚ) * 100

/-- Empirical exceedance percentage over natural-number samples (the
negative-binomial and Poisson draws are integer counts). -/
def meanGtN (xs : List ℕ) (target : ℚ) : ℚ :=
  ((xs.countP fun (x : ℕ) => decide (target < (x : ℚ)) : ℕ) : ℚ) / (xs.length : ℚ) * 100

/-- Result record of the probability engine (`NPBKBO.py` lines 132-137). -/
structure ModelResult where
  mc_prob : ℚ
  nb_prob : ℚ
  poisson_prob : ℚ
  final_prob : ℚ
deriving DecidableEq

/-- The neutral fallback result (`NPBKBO.py` lines 140-145). -/
def neutralResult : ModelResult :=
  { mc_prob := 50.0, nb_prob := 50.0, poisson_prob := 50.0, final_prob := 50.0 }

/-- The body of the `try` block of `run_probability_models`
(`NPBKBO.py` lines 106-137): league constants, proportional standard-deviation
split, the three empirical models and the league-weighted blend.  A sampler
failure aborts the body (the raised exception). -/
def run_probability_models_body (S : Samplers) (home_score away_score target : ℚ)
    (league : String) : Except Unit ModelResult := do
  let std_dev := if league = "NPB" then NPB_STD_DEV else KBO_STD_DEV
  let nb_r := if league = "NPB" then NPB_NB_R else KBO_NB_R
  let home_std := std_dev * (home_score / max 0.1 (home_score + away_score))
  let away_std := std_dev * (away_score / max 0.1 (home_score + away_score))
  let mcH ← S.normalHome home_score home_std NUM_SIMULATIONS
  let mcA ← S.normalAway away_score away_std NUM_SIMULATIONS
  let mc_prob := meanGtQ (List.zipWith (· + ·) mcH mcA) target
  let nbH ← S.nbHome nb_r (nb_r / max 0.1 (nb_r + home_score)) NUM_SIMULATIONS
  let nbA ← S.nbAway nb_r (nb_r / max 0.1 (nb_r + away_score)) NUM_SIMULATIONS
  let nb_prob := meanGtN (List.zipWith (· + ·) nbH nbA) target
  let poH ← S.poissonHome home_score NUM_SIMULATIONS
  let poA ← S.poissonAway away_score NUM_SIMULATIONS
  let poisson_prob := meanGtN (List.zipWith (· + ·) poH poA) target
  let final_prob :=
    if league = "NPB" then mc_prob * 0.5 + nb_prob * 0.35 + poisson_prob * 0.15
    else mc_prob * 0.6 + nb_prob * 0.25 + poisson_prob * 0.15
  return { mc_prob := mc_prob, nb_prob := nb_prob,
           poisson_prob := poisson_prob, final_prob := final_prob }

/-- `run_probability_models` (`NPBKBO.py` lines 103-145): the body wrapped in
`try/except`; any internal failure is absorbed and replaced by the neutral
all-50 result. -/
def run_probability_models (S : Samplers) (home_score away_score target : ℚ)
    (league : String) : ModelResult :=
  match run_probability_models_body S home_score away_score target league with
  | .ok r => r
  | .error _ => neutralResult

/-- `run_models` (`app.py` lines 67-88): the identical three-model
computation, but with NO surrounding `try/except` — a failure propagates to
the caller. -/
def run_models (S : Samplers) (hs as_ target : ℚ) (league_key : String) :
    Except Unit (ℚ × ℚ × ℚ × ℚ) := do
  let std_dev := if league_key = "NPB" then NPB_STD_DEV else KBO_STD_DEV
  let nb_r := if league_key = "NPB" then NPB_NB_R else KBO_NB_R
  let home_std := std_dev * (hs / max 0.1 (hs + as_))
  let away_std := std_dev * (as_ / max 0.1 (hs + as_))
  let mcH ← S.normalHome hs home_std NUM_SIMULATIONS
  let mcA ← S.normalAway as_ away_std NUM_SIMULATIONS
  let mc := meanGtQ (List.zipWith (· + ·) mcH mcA) target
  let nbH ← S.nbHome nb_r (nb_r / max 0.1 (nb_r + hs)) NUM_SIMULATIONS
  let nbA ← S.nbAway nb_r (nb_r / max 0.1 (nb_r + as_)) NUM_SIMULATIONS
  let nb := meanGtN (List.zipWith (· + ·) nbH nbA) target
  let poH ← S.poissonHome hs NUM_SIMULATIONS
  let poA ← S.poissonAway as_ NUM_SIMULATIONS
  let poi := meanGtN (List.zipWith (· + ·) poH poA) target
  let final :=
    if league_key = "NPB" then mc * 0.5 + nb * 0.35 + poi * 0.15
    else mc * 0.6 + nb * 0.25 + poi * 0.15
  return (mc, nb, poi, final)

/-- Samplers that always succeed and return fixed draw lists, ignoring the
distribution parameters: a fully deterministic instantiation of the six draw
sites used to evaluate the engine on concrete draws. -/
def listSamplers (mcH mcA : List ℚ) (nbH nbA poH poA : List ℕ) : Samplers where
  normalHome := fun _ _ _ => .ok mcH
  normalAway := fun _ _ _ => .ok mcA
  nbHome := fun _ _ _ => .ok nbH
  nbAway := fun _ _ _ => .ok nbA
  poissonHome := fun _ _ => .ok poH
  poissonAway := fun _ _ => .ok poA

/-- Samplers whose very first draw site fails: a model of a run in which a
model computation raises. -/
def failSamplers : Samplers where
  normalHome := fun _ _ _ => .error ()
  normalAway := fun _ _ _ => .error ()
  nbHome := fun _ _ _ => .error ()
  nbAway := fun _ _ _ => .error ()
  poissonHome := fun _ _ => .error ()
  poissonAway := fun _ _ => .error ()

/-- Direction of a recommendation label (大分 = over / 小分 = under). -/
inductive RecSide where
  | over
  | under
deriving DecidableEq

/-- Content of a recommendation label string (`NPBKBO.py` lines 152-161):
which side is recommended, which of the four strength tiers the text uses
(0 = extremely strong, 1 = strong, 2 = favored, 3 = slight lean), and the
probability embedded in the text via `%.1f%%`. -/
structure RecLabel where
  side : RecSide
  tier : ℕ
  shown : ℚ
deriving DecidableEq

/-- `get_star_recommendation` (`NPBKBO.py` lines 147-163).  The `try/except`
around the branch arithmetic can never fire for a numeric argument (the body
is comparisons, subtraction and string formatting), so only the normal path
is modelled.  Strings are modelled by their varying content (`RecLabel`). -/
def get_star_recommendation (prob : ℚ) : ℚ × RecLabel :=
  if 50 ≤ prob then
    let strength := prob - 50
    if 20 ≤ strength then (5.0, ⟨.over, 0, prob⟩)
    else if 10 ≤ strength then (4.0, ⟨.over, 1, prob⟩)
    else if 5 ≤ strength then (3.5, ⟨.over, 2, prob⟩)
    else (3.0, ⟨.over, 3, prob⟩)
  else
    let strength := 50 - prob
    if 20 ≤ strength then (5.0, ⟨.under, 0, 100 - prob⟩)
    else if 10 ≤ strength then (4.0, ⟨.under, 1, 100 - prob⟩)
    else if 5 ≤ strength then (3.5, ⟨.under, 2, 100 - prob⟩)
    else (3.0, ⟨.under, 3, 100 - prob⟩)

/-- Spec-side rating map (§4.3), written from the claim's words: 5.0 when
the strength is at least 20, else 4.0 when at least 10, else 3.5 when at
least 5, else 3.0. -/
def spec_rating (strength : ℚ) : ℚ :=
  if 20 ≤ strength then 5.0
  else if 10 ≤ strength then 4.0
  else if 5 ≤ strength then 3.5
  else 3.0

/-- Spec-side tier index matching the four label texts of §4.3. -/
def spec_tier (strength : ℚ) : ℕ :=
  if 20 ≤ strength then 0
  else if 10 ≤ strength then 1
  else if 5 ≤ strength then 2
  else 3

/-- Spec-side recommendation (§4.3), written from the claim's words: at
`final_prob >= 50` the over branch with strength `final_prob - 50` and
displayed probability `final_prob`; otherwise the under branch with strength
`50 - final_prob` and displayed probability `100 - final_prob`. -/
def spec_recommend (final_prob : ℚ) : ℚ × RecLabel :=
  if 50 ≤ final_prob then
    (spec_rating (final_prob - 50), ⟨.over, spec_tier (final_prob - 50), final_prob⟩)
  else
    (spec_rating (50 - final_prob), ⟨.under, spec_tier (50 - final_prob), 100 - final_prob⟩)

/-- Exception-aware view of `calculate_scores` (`NPBKBO.py` lines 64-101):
the body's result wrapped in `Some`, except that an internal exception
(lines 99-101) yields the sentinel pair `(None, None)`.  In exact arithmetic
the body cannot fail (every divisor is floored to a positive constant), so
the exceptional path is represented by an explicit `raises` flag. -/
def calculate_scores_exc (home away : TeamStat) (league : String)
    (include_effects raises : Bool) : Option ℚ × Option ℚ :=
  if raises then (none, none)
  else
    ((calculate_scores home away league include_effects).1,
     (calculate_scores home away league include_effects).2)

/-- The argument pair the console main loop hands to `run_probability_models`
for the full model (`NPBKBO.py` lines 200-201): the result of
`calculate_scores` is passed on directly, with no sentinel check in between. -/
def main_engine_args (home away : TeamStat) (league : String) (raises : Bool) :
    Option ℚ × Option ℚ :=
  calculate_scores_exc home away league true raises

/-- What `run_probability_models` computes when the console main loop passes
it possibly-`None` scores: arithmetic on `None` (line 110) raises a
`TypeError`, which the engine's own handler absorbs into the neutral result;
numeric scores follow the normal path. -/
def run_probability_models_opt (S : Samplers) (home_score away_score : Option ℚ)
    (target : ℚ) (league : String) : ModelResult :=
  match home_score, away_score with
  | some h, some a => run_probability_models S h a target league
  | _, _ => neutralResult

/-- The full-model analysis step of the console main loop
(`NPBKBO.py` lines 200-201) end to end: compute scores (possibly failing),
then hand whatever came back to the probability engine. -/
def main_full_results (S : Samplers) (home away : TeamStat) (league : String)
    (target : ℚ) (raises : Bool) : ModelResult :=
  run_probability_models_opt S (main_engine_args home away league raises).1
    (main_engine_args home away league raises).2 target league

/-- Concrete pitcher used as a test fixture (era 4.0, baa 0.250). -/
def samplePitcher : Pitcher := ⟨4.0, 0.250⟩

/-- Concrete team record used as a test fixture (§8 end-to-end scenario). -/
def sampleStat : TeamStat := ⟨4.0, 4.2, 3.8, 0.5, 0.270, 0.340, samplePitcher⟩

/-- A second concrete team record used as a test fixture. -/
def sampleAway : TeamStat := ⟨3.5, 3.9, 4.1, 0.4, 0.260, 0.330, ⟨3.2, 0.240⟩⟩

/-- Team record with every statistic zero: a valid record (all averages
nonnegative, all rates in `[0,1]`). -/
def zeroStat : TeamStat := ⟨0, 0, 0, 0, 0, 0, ⟨0, 0⟩⟩

/-! Helper lemmas. -/

/-- Unfolded form of `weighted_score` (the let-bindings substituted). -/
theorem weighted_score_def (data : TeamStat) (opp_pitcher : Pitcher) (league_factor : ℚ) :
    weighted_score data opp_pitcher league_factor =
      max 0.1 ((data.time_avg * 0.5 + data.base_avg * 0.3 + data.allow * 0.2) * league_factor *
        (0.8 + 0.2 * data.over_rate) *
        (1.0 / max 0.1 (min 2.0 ((4.5 / max 0.01 opp_pitcher.era) * 0.7 +
          (0.3 / max 0.001 opp_pitcher.baa) * 0.3))) *
        (0.6 + (data.team_batting / max 0.001 0.270) * 0.5 +
          (data.team_obp / max 0.001 0.340) * 0.5)) := rfl

theorem meanGtQ_eq_100 (xs : List ℚ) (t : ℚ) (hne : xs ≠ [])
    (h : ∀ x ∈ xs, t < x) : meanGtQ xs t = 100 := by
  unfold meanGtQ
  have hc : (xs.countP fun x => decide (t < x)) = xs.length := by
    rw [List.countP_eq_length]
    intro a ha
    simpa using h a ha
  have hlen : (xs.length : ℚ) ≠ 0 := by
    have : xs.length ≠ 0 := fun h0 => hne (List.length_eq_zero.mp h0)
    exact_mod_cast this
  rw [hc, div_self hlen, one_mul]

theorem meanGtQ_eq_0 (xs : List ℚ) (t : ℚ) (h : ∀ x ∈ xs, x ≤ t) :
    meanGtQ xs t = 0 := by
  unfold meanGtQ
  have hc : (xs.countP fun x => decide (t < x)) = 0 := by
    rw [List.countP_eq_zero]
    intro a ha
    simpa using not_lt.mpr (h a ha)
  rw [hc]
  norm_num

theorem meanGtN_eq_100 (xs : List ℕ) (t : ℚ) (hne : xs ≠ [])
    (h : ∀ x ∈ xs, t < (x : ℚ)) : meanGtN xs t = 100 := by
  unfold meanGtN
  have hc : (xs.countP fun (x : ℕ) => decide (t < (x : ℚ))) = xs.length := by
    rw [List.countP_eq_length]
    intro a ha
    simpa using h a ha
  have hlen : (xs.length : ℚ) ≠ 0 := by
    have : xs.length ≠ 0 := fun h0 => hne (List.length_eq_zero.mp h0)
    exact_mod_cast this
  rw [hc, div_self hlen, one_mul]

theorem meanGtN_eq_0 (xs : List ℕ) (t : ℚ) (h : ∀ x ∈ xs, (x : ℚ) ≤ t) :
    meanGtN xs t = 0 := by
  unfold meanGtN
  have hc : (xs.countP fun (x : ℕ) => decide (t < (x : ℚ))) = 0 := by
    rw [List.countP_eq_zero]
    intro a ha
    simpa using not_lt.mpr (h a ha)
  rw [hc]
  norm_num

/-- A nonempty empirical exceedance percentage is 100 precisely when every
sample strictly exceeds the target. -/
theorem meanGtQ_eq_100_iff (xs : List ℚ) (t : ℚ) (hne : xs ≠ []) :
    meanGtQ xs t = 100 ↔ ∀ x ∈ xs, t < x := by
  constructor
  · intro h
    have hlen : (xs.length : ℚ) ≠ 0 := by
      have hx : xs.length ≠ 0 := fun h0 => hne (List.length_eq_zero.mp h0)
      exact_mod_cast hx
    unfold meanGtQ at h
    have hc : ((xs.countP fun x => decide (t < x) : ℕ) : ℚ) = (xs.length : ℚ) := by
      field_simp at h
      linarith
    have hc2 : (xs.countP fun x => decide (t < x)) = xs.length := by exact_mod_cast hc
    intro a ha
    simpa using List.countP_eq_length.mp hc2 a ha
  · exact meanGtQ_eq_100 xs t hne

/-- Natural-number-sample version of `meanGtQ_eq_100_iff`. -/
theorem meanGtN_eq_100_iff (xs : List ℕ) (t : ℚ) (hne : xs ≠ []) :
    meanGtN xs t = 100 ↔ ∀ x ∈ xs, t < (x : ℚ) := by
  constructor
  · intro h
    have hlen : (xs.length : ℚ) ≠ 0 := by
      have hx : xs.length ≠ 0 := fun h0 => hne (List.length_eq_zero.mp h0)
      exact_mod_cast hx
    unfold meanGtN at h
    have hc : ((xs.countP fun (x : ℕ) => decide (t < (x : ℚ)) : ℕ) : ℚ) =
        (xs.length : ℚ) := by
      field_simp at h
      linarith
    have hc2 : (xs.countP fun (x : ℕ) => decide (t < (x : ℚ))) = xs.length := by
      exact_mod_cast hc
    intro a ha
    simpa using List.countP_eq_length.mp hc2 a ha
  · exact meanGtN_eq_100 xs t hne

/-- Evaluation of the engine with deterministic samplers: all six draws
succeed, so the wrapper returns the body's record. -/
theorem run_probability_models_listSamplers (mcH mcA : List ℚ) (nbH nbA poH poA : List ℕ)
    (hs as_ target : ℚ) (lg : String) :
    run_probability_models (listSamplers mcH mcA nbH nbA poH poA) hs as_ target lg =
      { mc_prob := meanGtQ (List.zipWith (· + ·) mcH mcA) target,
        nb_prob := meanGtN (List.zipWith (· + ·) nbH nbA) target,
        poisson_prob := meanGtN (List.zipWith (· + ·) poH poA) target,
        final_prob :=
          if lg = "NPB" then
            meanGtQ (List.zipWith (· + ·) mcH mcA) target * 0.5 +
              meanGtN (List.zipWith (· + ·) nbH nbA) target * 0.35 +
              meanGtN (List.zipWith (· + ·) poH poA) target * 0.15
          else
            meanGtQ (List.zipWith (· + ·) mcH mcA) target * 0.6 +
              meanGtN (List.zipWith (· + ·) nbH nbA) target * 0.25 +
              meanGtN (List.zipWith (· + ·) poH poA) target * 0.15 } := rfl

theorem except_unit_cases {α : Type} (e : Except Unit α) :
    e = .error () ∨ ∃ a, e = .ok a := by
  cases e with
  | error u => cases u; exact Or.inl rfl
  | ok a => exact Or.inr ⟨a, rfl⟩

/-- Every run of the probability engine either returns the neutral result or
behaves as a run over six successfully drawn sample lists. -/
theorem run_probability_models_cases (S : Samplers) (hs as_ t : ℚ) (lg : String) :
    run_probability_models S hs as_ t lg = neutralResult ∨
    ∃ mcH mcA nbH nbA poH poA,
      run_probability_models S hs as_ t lg =
        run_probability_models (listSamplers mcH mcA nbH nbA poH poA) hs as_ t lg := by
  obtain h1 | ⟨mcH, h1⟩ := except_unit_cases (S.normalHome hs
      ((if lg = "NPB" then NPB_STD_DEV else KBO_STD_DEV) * (hs / max 0.1 (hs + as_)))
      NUM_SIMULATIONS)
  · left
    unfold run_probability_models run_probability_models_body
    simp only [h1, bind, Except.bind]
  obtain h2 | ⟨mcA, h2⟩ := except_unit_cases (S.normalAway as_
      ((if lg = "NPB" then NPB_STD_DEV else KBO_STD_DEV) * (as_ / max 0.1 (hs + as_)))
      NUM_SIMULATIONS)
  · left
    unfold run_probability_models run_probability_models_body
    simp only [h1, h2, bind, Except.bind]
  obtain h3 | ⟨nbH, h3⟩ := except_unit_cases (S.nbHome
      (if lg = "NPB" then NPB_NB_R else KBO_NB_R)
      ((if lg = "NPB" then NPB_NB_R else KBO_NB_R) /
        max 0.1 ((if lg = "NPB" then NPB_NB_R else KBO_NB_R) + hs))
      NUM_SIMULATIONS)
  · left
    unfold run_probability_models run_probability_models_body
    simp only [h1, h2, h3, bind, Except.bind]
  obtain h4 | ⟨nbA, h4⟩ := except_unit_cases (S.nbAway
      (if lg = "NPB" then NPB_NB_R else KBO_NB_R)
      ((if lg = "NPB" then NPB_NB_R else KBO_NB_R) /
        max 0.1 ((if lg = "NPB" then NPB_NB_R else KBO_NB_R) + as_))
      NUM_SIMULATIONS)
  · left
    unfold run_probability_models run_probability_models_body
    simp only [h1, h2, h3, h4, bind, Except.bind]
  obtain h5 | ⟨poH, h5⟩ := except_unit_cases (S.poissonHome hs NUM_SIMULATIONS)
  · left
    unfold run_probability_models run_probability_models_body
    simp only [h1, h2, h3, h4, h5, bind, Except.bind]
  obtain h6 | ⟨poA, h6⟩ := except_unit_cases (S.poissonAway as_ NUM_SIMULATIONS)
  · left
    unfold run_probability_models run_probability_models_body
    simp only [h1, h2, h3, h4, h5, h6, bind, Except.bind]
  right
  refine ⟨mcH, mcA, nbH, nbA, poH, poA, ?_⟩
  rw [run_probability_models_listSamplers]
  unfold run_probability_models run_probability_models_body
  simp only [h1, h2, h3, h4, h5, h6, bind, Except.bind, pure, Except.pure]

theorem blend_npb_bounds (a b c : ℚ) :
    min a (min b c) ≤ a * 0.5 + b * 0.35 + c * 0.15 ∧
      a * 0.5 + b * 0.35 + c * 0.15 ≤ max a (max b c) := by
  have ha1 : min a (min b c) ≤ a := min_le_left _ _
  have hb1 : min a (min b c) ≤ b := le_trans (min_le_right _ _) (min_le_left _ _)
  have hc1 : min a (min b c) ≤ c := le_trans (min_le_right _ _) (min_le_right _ _)
  have ha2 : a ≤ max a (max b c) := le_max_left _ _
  have hb2 : b ≤ max a (max b c) := le_trans (le_max_left _ _) (le_max_right _ _)
  have hc2 : c ≤ max a (max b c) := le_trans (le_max_right _ _) (le_max_right _ _)
  constructor <;> linarith

theorem blend_kbo_bounds (a b c : ℚ) :
    min a (min b c) ≤ a * 0.6 + b * 0.25 + c * 0.15 ∧
      a * 0.6 + b * 0.25 + c * 0.15 ≤ max a (max b c) := by
  have ha1 : min a (min b c) ≤ a := min_le_left _ _
  have hb1 : min a (min b c) ≤ b := le_trans (min_le_right _ _) (min_le_left _ _)
  have hc1 : min a (min b c) ≤ c := le_trans (min_le_right _ _) (min_le_right _ _)
  have ha2 : a ≤ max a (max b c) := le_max_left _ _
  have hb2 : b ≤ max a (max b c) := le_trans (le_max_left _ _) (le_max_right _ _)
  have hc2 : c ≤ max a (max b c) := le_trans (le_max_right _ _) (le_max_right _ _)
  constructor <;> linarith

theorem max01_pos (x : ℚ) : 0 < max 0.1 x :=
  lt_of_lt_of_le (by norm_num) (le_max_left _ _)

theorem max001_pos (x : ℚ) : 0 < max 0.01 x :=
  lt_of_lt_of_le (by norm_num) (le_max_left _ _)

/-- Normalised unfolding of `weighted_score`: the constant floors
`max 0.001 0.270` and `max 0.001 0.340` evaluated. -/
theorem weighted_score_eq (data : TeamStat) (opp_pitcher : Pitcher) (league_factor : ℚ) :
    weighted_score data opp_pitcher league_factor =
      max 0.1 ((data.time_avg * 0.5 + data.base_avg * 0.3 + data.allow * 0.2) * league_factor *
        (0.8 + 0.2 * data.over_rate) *
        (1.0 / max 0.1 (min 2.0 ((4.5 / max 0.01 opp_pitcher.era) * 0.7 +
          (0.3 / max 0.001 opp_pitcher.baa) * 0.3))) *
        (0.6 + data.team_batting / 0.270 * 0.5 + data.team_obp / 0.340 * 0.5)) := by
  rw [weighted_score_def]
  rw [show max (0.001 : ℚ) 0.270 = 0.270 from max_eq_right (by norm_num)]
  rw [show max (0.001 : ℚ) 0.340 = 0.340 from max_eq_right (by norm_num)]

theorem max0001_pos (x : ℚ) : 0 < max 0.001 x :=
  lt_of_lt_of_le (by norm_num) (le_max_left _ _)

/-- Every full-model score is at least the 0.1 floor. -/
theorem weighted_score_ge (data : TeamStat) (opp_pitcher : Pitcher) (league_factor : ℚ) :
    0.1 ≤ weighted_score data opp_pitcher league_factor := by
  rw [weighted_score_def]
  exact le_max_left _ _

theorem calculate_scores_true (home away : TeamStat) (league : String) :
    calculate_scores home away league true =
      (weighted_score home away.pitcher (if league = "NPB" then 0.95 else 1.05),
       weighted_score away home.pitcher (if league = "NPB" then 0.95 else 1.05)) := rfl

theorem calculate_scores_false (home away : TeamStat) (league : String) :
    calculate_scores home away league false =
      ((home.time_avg * 0.6 + home.base_avg * 0.4) * (if league = "NPB" then 0.95 else 1.05),
       (away.time_avg * 0.6 + away.base_avg * 0.4) * (if league = "NPB" then 0.95 else 1.05)) :=
  rfl

/-- The source's per-side formula agrees with the §4.1 formula as the spec
writes it (the floored constant denominators evaluated, `max` arguments
reordered). -/
theorem weighted_score_eq_spec (t : TeamStat) (opp : Pitcher) (m : ℚ) :
    weighted_score t opp m = spec_full_score t opp m := by
  rw [weighted_score_eq]
  unfold spec_full_score spec_pitcher_factor
  rw [max_comm opp.era 0.01, max_comm opp.baa 0.001,
      max_comm (min (2.0 : ℚ) ((4.5 / max 0.01 opp.era) * 0.7 +
        (0.3 / max 0.001 opp.baa) * 0.3)) 0.1]
  congr 1
  ring

/-- The Streamlit engine is the same computation as the console engine's
`try`-body, with the result record flattened to a tuple and no handler. -/
theorem run_models_eq_body_map (S : Samplers) (hs as_ t : ℚ) (lg : String) :
    run_models S hs as_ t lg =
      (run_probability_models_body S hs as_ t lg).map
        (fun r => (r.mc_prob, r.nb_prob, r.poisson_prob, r.final_prob)) := by
  obtain h1 | ⟨mcH, h1⟩ := except_unit_cases (S.normalHome hs
      ((if lg = "NPB" then NPB_STD_DEV else KBO_STD_DEV) * (hs / max 0.1 (hs + as_)))
      NUM_SIMULATIONS) <;>
  obtain h2 | ⟨mcA, h2⟩ := except_unit_cases (S.normalAway as_
      ((if lg = "NPB" then NPB_STD_DEV else KBO_STD_DEV) * (as_ / max 0.1 (hs + as_)))
      NUM_SIMULATIONS) <;>
  obtain h3 | ⟨nbH, h3⟩ := except_unit_cases (S.nbHome
      (if lg = "NPB" then NPB_NB_R else KBO_NB_R)
      ((if lg = "NPB" then NPB_NB_R else KBO_NB_R) /
        max 0.1 ((if lg = "NPB" then NPB_NB_R else KBO_NB_R) + hs))
      NUM_SIMULATIONS) <;>
  obtain h4 | ⟨nbA, h4⟩ := except_unit_cases (S.nbAway
      (if lg = "NPB" then NPB_NB_R else KBO_NB_R)
      ((if lg = "NPB" then NPB_NB_R else KBO_NB_R) /
        max 0.1 ((if lg = "NPB" then NPB_NB_R else KBO_NB_R) + as_))
      NUM_SIMULATIONS) <;>
  obtain h5 | ⟨poH, h5⟩ := except_unit_cases (S.poissonHome hs NUM_SIMULATIONS) <;>
  obtain h6 | ⟨poA, h6⟩ := except_unit_cases (S.poissonAway as_ NUM_SIMULATIONS) <;>
    (unfold run_models run_probability_models_body
     simp only [h1, h2, h3, h4, h5, h6, bind, Except.bind, pure, Except.pure, Except.map])

/-! Claims. -/

/-- C1: for leagues NPB and KBO, `calculate_scores` computes exactly the two
§4.1 formulas — baseline mode is `(time_avg*0.6 + base_avg*0.4) *
league_multiplier` with multiplier 0.95 for NPB and 1.05 for KBO,
independent of every pitcher and team-offense field, and full mode is the
floored product formula with the pitcher factor taken from the opposing
team's pitcher. -/
theorem C1_calculate_scores_formulas (home away : TeamStat) (league : String)
    (_hleague : league = "NPB" ∨ league = "KBO") :
    calculate_scores home away league false =
      (spec_baseline_score home (spec_league_multiplier league),
       spec_baseline_score away (spec_league_multiplier league)) ∧
    calculate_scores home away league true =
      (spec_full_score home away.pitcher (spec_league_multiplier league),
       spec_full_score away home.pitcher (spec_league_multiplier league)) ∧
    spec_league_multiplier "NPB" = 0.95 ∧ spec_league_multiplier "KBO" = 1.05 ∧
    (∀ home2 away2 : TeamStat,
      home2.time_avg = home.time_avg → home2.base_avg = home.base_avg →
      away2.time_avg = away.time_avg → away2.base_avg = away.base_avg →
      calculate_scores home2 away2 league false = calculate_scores home away league false) := by
  refine ⟨rfl, ?_, by simp [spec_league_multiplier], by simp [spec_league_multiplier], ?_⟩
  · rw [calculate_scores_true, weighted_score_eq_spec, weighted_score_eq_spec]
    rfl
  · intro home2 away2 e1 e2 e3 e4
    rw [calculate_scores_false, calculate_scores_false, e1, e2, e3, e4]

/-- C1 witness: the formula correspondence evaluated at concrete stats for
league NPB. -/
theorem C1_witness :
    calculate_scores sampleStat sampleAway "NPB" false =
      (spec_baseline_score sampleStat (spec_league_multiplier "NPB"),
       spec_baseline_score sampleAway (spec_league_multiplier "NPB")) ∧
    calculate_scores sampleStat sampleAway "NPB" true =
      (spec_full_score sampleStat sampleAway.pitcher (spec_league_multiplier "NPB"),
       spec_full_score sampleAway sampleStat.pitcher (spec_league_multiplier "NPB")) := by
  have h := C1_calculate_scores_formulas sampleStat sampleAway "NPB" (Or.inl rfl)
  exact ⟨h.1, h.2.1⟩

/-- C5: the recommendation follows the §4.3 contract — over branch at
`final_prob >= 50` (inclusive) with strength `final_prob - 50` and displayed
probability `final_prob`, under branch otherwise with strength
`50 - final_prob` and displayed probability `100 - final_prob`, rating by
the 20/10/5 thresholds — and the rating is always one of 3.0, 3.5, 4.0,
5.0. -/
theorem C5_recommendation_contract (prob : ℚ) :
    get_star_recommendation prob = spec_recommend prob ∧
    (get_star_recommendation prob).1 ∈ ({3.0, 3.5, 4.0, 5.0} : Set ℚ) := by
  constructor
  · simp only [get_star_recommendation, spec_recommend, spec_rating, spec_tier]
    split_ifs <;> rfl
  · simp only [get_star_recommendation, Set.mem_insert_iff, Set.mem_singleton_iff]
    split_ifs <;> norm_num

/-- C7 counterexample: at probability exactly 70 the strength is 20, which
reaches the `>= 20` tier, so the rating is 5.0 and not 4.0 — for both the
over side (70.0) and the under side (30.0). -/
theorem C7_counterexample :
    (get_star_recommendation 70).1 = 5.0 ∧ (get_star_recommendation 70).1 ≠ 4.0 ∧
    (get_star_recommendation 30).1 = 5.0 ∧ (get_star_recommendation 30).1 ≠ 4.0 := by
  norm_num [get_star_recommendation]

/-- C7 amended: `recommend(70.0)` yields rating 5.0 with the strongest over
label showing 70.0%, and `recommend(30.0)` yields rating 5.0 with the
strongest under label showing 70.0%. -/
theorem C7_amended_values :
    get_star_recommendation 70 = (5.0, ⟨RecSide.over, 0, 70⟩) ∧
    get_star_recommendation 30 = (5.0, ⟨RecSide.under, 0, 70⟩) := by
  norm_num [get_star_recommendation]

/-- C9 counterexample: when the score computation fails internally, the
console main loop (lines 200-201) passes the sentinel pair `(None, None)`
straight to `run_probability_models` — there is no sentinel check before the
engine is invoked. -/
theorem C9_counterexample :
    main_engine_args sampleStat sampleAway "NPB" true = (none, none) := rfl

/-- C9 amended: `calculate_scores` returns the sentinel pair `(None, None)`
on an internal exception, but the console main loop performs no sentinel
check: it hands the sentinels directly to `run_probability_models`, whose
own exception handler absorbs the `None` arithmetic and yields the neutral
all-50 result. -/
theorem C9_amended (S : Samplers) (home away : TeamStat) (league : String) (target : ℚ) :
    calculate_scores_exc home away league true true = (none, none) ∧
    main_engine_args home away league true = (none, none) ∧
    main_full_results S home away league target true = neutralResult :=
  ⟨rfl, rfl, rfl⟩

/-- C10: the engine only distinguishes whether the league string equals
"NPB": any two non-"NPB" league values produce identical outputs from
`calculate_scores` and `run_probability_models` on equal remaining inputs
and equal draws. -/
theorem C10_non_npb_leagues_identical (L1 L2 : String)
    (h1 : L1 ≠ "NPB") (h2 : L2 ≠ "NPB") (home away : TeamStat) (b : Bool)
    (S : Samplers) (hs as_ target : ℚ) :
    calculate_scores home away L1 b = calculate_scores home away L2 b ∧
    run_probability_models S hs as_ target L1 =
      run_probability_models S hs as_ target L2 := by
  constructor
  · unfold calculate_scores
    simp [h1, h2]
  · unfold run_probability_models run_probability_models_body
    simp [h1, h2]

/-- C10 witness: the league strings "kbo" and "KBO" (both different from
"NPB") give identical scores and identical engine results. -/
theorem C10_witness :
    calculate_scores sampleStat sampleAway "kbo" true =
      calculate_scores sampleStat sampleAway "KBO" true ∧
    run_probability_models (listSamplers [1] [1] [1] [1] [0] [0]) 1 1 0 "kbo" =
      run_probability_models (listSamplers [1] [1] [1] [1] [0] [0]) 1 1 0 "KBO" :=
  C10_non_npb_leagues_identical "kbo" "KBO" (by decide) (by decide) sampleStat sampleAway
    true (listSamplers [1] [1] [1] [1] [0] [0]) 1 1 0

/-- C2: the final probability is the fixed league blend (NPB
0.5/0.35/0.15, otherwise 0.6/0.25/0.15), whose weights sum to exactly 1, so
`final_prob` is a convex combination lying between the minimum and the
maximum of the three model probabilities — for every samplers oracle,
including failing ones (where all four probabilities are 50). -/
theorem C2_blend_convex (S : Samplers) (hs as_ target : ℚ) (league : String) :
    ((0.5 : ℚ) + 0.35 + 0.15 = 1) ∧ ((0.6 : ℚ) + 0.25 + 0.15 = 1) ∧
    (run_probability_models S hs as_ target league).final_prob =
      (if league = "NPB" then
        0.5 * (run_probability_models S hs as_ target league).mc_prob +
          0.35 * (run_probability_models S hs as_ target league).nb_prob +
          0.15 * (run_probability_models S hs as_ target league).poisson_prob
      else
        0.6 * (run_probability_models S hs as_ target league).mc_prob +
          0.25 * (run_probability_models S hs as_ target league).nb_prob +
          0.15 * (run_probability_models S hs as_ target league).poisson_prob) ∧
    min (run_probability_models S hs as_ target league).mc_prob
        (min (run_probability_models S hs as_ target league).nb_prob
          (run_probability_models S hs as_ target league).poisson_prob) ≤
      (run_probability_models S hs as_ target league).final_prob ∧
    (run_probability_models S hs as_ target league).final_prob ≤
      max (run_probability_models S hs as_ target league).mc_prob
        (max (run_probability_models S hs as_ target league).nb_prob
          (run_probability_models S hs as_ target league).poisson_prob) := by
  obtain hcase | ⟨mcH, mcA, nbH, nbA, poH, poA, hcase⟩ :=
    run_probability_models_cases S hs as_ target league
  · rw [hcase]
    unfold neutralResult
    refine ⟨by norm_num, by norm_num, ?_, ?_, ?_⟩ <;> (try split_ifs) <;> norm_num
  · rw [hcase, run_probability_models_listSamplers]
    dsimp only
    refine ⟨by norm_num, by norm_num, ?_, ?_, ?_⟩
    · split_ifs <;> ring
    · split_ifs
      · exact (blend_npb_bounds _ _ _).1
      · exact (blend_kbo_bounds _ _ _).1
    · split_ifs
      · exact (blend_npb_bounds _ _ _).2
      · exact (blend_kbo_bounds _ _ _).2

/-- C4 counterexample: the all-zero team record is valid (every average
nonnegative, every rate in [0,1]), yet the baseline-mode score is exactly 0,
not strictly positive — baseline mode has no 0.1 floor. -/
theorem C4_counterexample :
    (calculate_scores zeroStat zeroStat "NPB" false).1 = 0 ∧
    ¬ (0 < (calculate_scores zeroStat zeroStat "NPB" false).1) := by
  rw [calculate_scores_false]
  norm_num [zeroStat]

/-- C4 amended: for every valid TeamStat pair, full-mode scores are at least
the 0.1 floor (hence strictly positive), while baseline-mode scores are only
guaranteed nonnegative — they are 0 when `time_avg` and `base_avg` are both
0 — and are strictly positive exactly when the weighted average
`time_avg*0.6 + base_avg*0.4` is positive. -/
theorem C4_amended (home away : TeamStat) (league : String)
    (h1 : 0 ≤ home.time_avg) (h2 : 0 ≤ home.base_avg)
    (h3 : 0 ≤ away.time_avg) (h4 : 0 ≤ away.base_avg) :
    0.1 ≤ (calculate_scores home away league true).1 ∧
    0.1 ≤ (calculate_scores home away league true).2 ∧
    0 < (calculate_scores home away league true).1 ∧
    0 < (calculate_scores home away league true).2 ∧
    0 ≤ (calculate_scores home away league false).1 ∧
    0 ≤ (calculate_scores home away league false).2 ∧
    (0 < (calculate_scores home away league false).1 ↔
      0 < home.time_avg * 0.6 + home.base_avg * 0.4) ∧
    (0 < (calculate_scores home away league false).2 ↔
      0 < away.time_avg * 0.6 + away.base_avg * 0.4) := by
  have hl : (0 : ℚ) < (if league = "NPB" then (0.95 : ℚ) else 1.05) := by
    split_ifs <;> norm_num
  rw [calculate_scores_true, calculate_scores_false]
  refine ⟨weighted_score_ge _ _ _, weighted_score_ge _ _ _,
    lt_of_lt_of_le (by norm_num) (weighted_score_ge _ _ _),
    lt_of_lt_of_le (by norm_num) (weighted_score_ge _ _ _),
    mul_nonneg (by linarith) hl.le, mul_nonneg (by linarith) hl.le,
    mul_pos_iff_of_pos_right hl, mul_pos_iff_of_pos_right hl⟩

/-- C4 witness: the floor and nonnegativity bounds evaluated at concrete
valid stats for league KBO. -/
theorem C4_witness :
    0.1 ≤ (calculate_scores sampleStat sampleAway "KBO" true).1 ∧
    0.1 ≤ (calculate_scores sampleStat sampleAway "KBO" true).2 ∧
    0 < (calculate_scores sampleStat sampleAway "KBO" true).1 ∧
    0 < (calculate_scores sampleStat sampleAway "KBO" true).2 ∧
    0 ≤ (calculate_scores sampleStat sampleAway "KBO" false).1 ∧
    0 ≤ (calculate_scores sampleStat sampleAway "KBO" false).2 := by
  have h := C4_amended sampleStat sampleAway "KBO"
    (by norm_num [sampleStat]) (by norm_num [sampleStat])
    (by norm_num [sampleAway]) (by norm_num [sampleAway])
  exact ⟨h.1, h.2.1, h.2.2.1, h.2.2.2.1, h.2.2.2.2.1, h.2.2.2.2.2.1⟩

/-- C6: holding all other inputs fixed, the full-mode score is monotonically
non-decreasing in the side's own `team_batting` and `team_obp`, and
monotonically non-decreasing in the opposing pitcher's `era` and `baa` (a
worse opposing pitcher weakly lowers the pitcher factor, weakly raises its
floored reciprocal and therefore weakly raises the score). -/
theorem C6_full_mode_monotonicity (data : TeamStat) (opp : Pitcher) (m : ℚ)
    (hm : 0 ≤ m) (hta : 0 ≤ data.time_avg) (hba : 0 ≤ data.base_avg)
    (hal : 0 ≤ data.allow) (hor : 0 ≤ data.over_rate)
    (htb : 0 ≤ data.team_batting) (hto : 0 ≤ data.team_obp) :
    (∀ b1 b2 : ℚ, b1 ≤ b2 →
      weighted_score { data with team_batting := b1 } opp m ≤
        weighted_score { data with team_batting := b2 } opp m) ∧
    (∀ o1 o2 : ℚ, o1 ≤ o2 →
      weighted_score { data with team_obp := o1 } opp m ≤
        weighted_score { data with team_obp := o2 } opp m) ∧
    (∀ e1 e2 : ℚ, e1 ≤ e2 →
      weighted_score data { opp with era := e1 } m ≤
        weighted_score data { opp with era := e2 } m) ∧
    (∀ a1 a2 : ℚ, a1 ≤ a2 →
      weighted_score data { opp with baa := a1 } m ≤
        weighted_score data { opp with baa := a2 } m) := by
  obtain ⟨ta, bavg, alw, orate, tb, tob, pown⟩ := data
  obtain ⟨oer, obaa⟩ := opp
  simp only at hta hba hal hor htb hto
  have hB : (0 : ℚ) ≤ ta * 0.5 + bavg * 0.3 + alw * 0.2 := by linarith
  have hO : (0 : ℚ) ≤ 0.8 + 0.2 * orate := by linarith
  have hR : ∀ x : ℚ, (0 : ℚ) ≤ 1.0 / max 0.1 x :=
    fun x => le_of_lt (div_pos (by norm_num) (max01_pos x))
  have hK : (0 : ℚ) ≤ (ta * 0.5 + bavg * 0.3 + alw * 0.2) * m * (0.8 + 0.2 * orate) :=
    mul_nonneg (mul_nonneg hB hm) hO
  have hF : (0 : ℚ) ≤ 0.6 + tb / 0.270 * 0.5 + tob / 0.340 * 0.5 := by
    have hf1 : (0 : ℚ) ≤ tb / 0.270 * 0.5 :=
      mul_nonneg (div_nonneg htb (by norm_num)) (by norm_num)
    have hf2 : (0 : ℚ) ≤ tob / 0.340 * 0.5 :=
      mul_nonneg (div_nonneg hto (by norm_num)) (by norm_num)
    linarith
  refine ⟨?_, ?_, ?_, ?_⟩
  · intro b1 b2 hb
    rw [weighted_score_eq, weighted_score_eq]
    dsimp only
    refine max_le_max le_rfl (mul_le_mul_of_nonneg_left ?_ (mul_nonneg hK (hR _)))
    have hd : b1 / 0.270 ≤ b2 / 0.270 := (div_le_div_iff_of_pos_right (by norm_num)).mpr hb
    linarith
  · intro o1 o2 ho
    rw [weighted_score_eq, weighted_score_eq]
    dsimp only
    refine max_le_max le_rfl (mul_le_mul_of_nonneg_left ?_ (mul_nonneg hK (hR _)))
    have hd : o1 / 0.340 ≤ o2 / 0.340 := (div_le_div_iff_of_pos_right (by norm_num)).mpr ho
    linarith
  · intro e1 e2 he
    rw [weighted_score_eq, weighted_score_eq]
    dsimp only
    refine max_le_max le_rfl
      (mul_le_mul_of_nonneg_right (mul_le_mul_of_nonneg_left ?_ hK) hF)
    have hmax : max (0.01 : ℚ) e1 ≤ max 0.01 e2 := max_le_max le_rfl he
    have hdiv : 4.5 / max 0.01 e2 ≤ 4.5 / max 0.01 e1 :=
      (div_le_div_iff_of_pos_left (by norm_num) (max001_pos e2) (max001_pos e1)).mpr hmax
    have hpf : min (2.0 : ℚ) ((4.5 / max 0.01 e2) * 0.7 + (0.3 / max 0.001 obaa) * 0.3) ≤
        min 2.0 ((4.5 / max 0.01 e1) * 0.7 + (0.3 / max 0.001 obaa) * 0.3) := by
      refine min_le_min le_rfl ?_
      have hmul := mul_le_mul_of_nonneg_right hdiv (show (0 : ℚ) ≤ 0.7 by norm_num)
      linarith
    exact (div_le_div_iff_of_pos_left (by norm_num) (max01_pos _) (max01_pos _)).mpr
      (max_le_max le_rfl hpf)
  · intro a1 a2 ha
    rw [weighted_score_eq, weighted_score_eq]
    dsimp only
    refine max_le_max le_rfl
      (mul_le_mul_of_nonneg_right (mul_le_mul_of_nonneg_left ?_ hK) hF)
    have hmax : max (0.001 : ℚ) a1 ≤ max 0.001 a2 := max_le_max le_rfl ha
    have hdiv : 0.3 / max 0.001 a2 ≤ 0.3 / max 0.001 a1 :=
      (div_le_div_iff_of_pos_left (by norm_num) (max0001_pos a2) (max0001_pos a1)).mpr hmax
    have hpf : min (2.0 : ℚ) ((4.5 / max 0.01 oer) * 0.7 + (0.3 / max 0.001 a2) * 0.3) ≤
        min 2.0 ((4.5 / max 0.01 oer) * 0.7 + (0.3 / max 0.001 a1) * 0.3) := by
      refine min_le_min le_rfl ?_
      have hmul := mul_le_mul_of_nonneg_right hdiv (show (0 : ℚ) ≤ 0.3 by norm_num)
      linarith
    exact (div_le_div_iff_of_pos_left (by norm_num) (max01_pos _) (max01_pos _)).mpr
      (max_le_max le_rfl hpf)

/-- C6 witness: the four monotonicity directions evaluated at concrete
stats — raising own batting 0.250→0.300, own OBP 0.300→0.360, opposing era
2.5→4.5 and opposing baa 0.220→0.280 each weakly raises the score. -/
theorem C6_witness :
    weighted_score { sampleStat with team_batting := 0.250 } samplePitcher 0.95 ≤
      weighted_score { sampleStat with team_batting := 0.300 } samplePitcher 0.95 ∧
    weighted_score { sampleStat with team_obp := 0.300 } samplePitcher 0.95 ≤
      weighted_score { sampleStat with team_obp := 0.360 } samplePitcher 0.95 ∧
    weighted_score sampleStat { samplePitcher with era := 2.5 } 0.95 ≤
      weighted_score sampleStat { samplePitcher with era := 4.5 } 0.95 ∧
    weighted_score sampleStat { samplePitcher with baa := 0.220 } 0.95 ≤
      weighted_score sampleStat { samplePitcher with baa := 0.280 } 0.95 := by
  have h := C6_full_mode_monotonicity sampleStat samplePitcher 0.95
    (by norm_num) (by norm_num [sampleStat]) (by norm_num [sampleStat])
    (by norm_num [sampleStat]) (by norm_num [sampleStat])
    (by norm_num [sampleStat]) (by norm_num [sampleStat])
  exact ⟨h.1 0.250 0.300 (by norm_num), h.2.1 0.300 0.360 (by norm_num),
    h.2.2.1 2.5 4.5 (by norm_num), h.2.2.2 0.220 0.280 (by norm_num)⟩

/-- C8 counterexample: with strictly positive expected scores (1 and 1) and
target = 0, a run whose two Poisson draws are both 0 — an event of positive
probability — gives a Poisson sub-probability of 0, not 100: the simulated
total 0 does not strictly exceed the target 0, so "at target = 0 all three
sub-probabilities equal 100" fails. -/
theorem C8_counterexample :
    (run_probability_models (listSamplers [1] [1] [1] [1] [0] [0]) 1 1 0 "NPB").poisson_prob
      = 0 ∧
    (run_probability_models (listSamplers [1] [1] [1] [1] [0] [0]) 1 1 0 "NPB").poisson_prob
      ≠ 100 := by
  rw [run_probability_models_listSamplers]
  norm_num [meanGtN, List.zipWith, List.countP, List.countP.go]

/-- C8 amended: over any recorded draw lists, each empirical sub-probability
is 100 when the target lies strictly below every simulated total (so each
tends to 100 as the target goes below all draws) and 0 when no simulated
total strictly exceeds the target (so each tends to 0 as the target grows
beyond all draws); conversely a sub-probability of 100 forces every
simulated total to strictly exceed the target, so at target = 0 the
sub-probabilities equal 100 only when every simulated total is strictly
positive — which can fail, since negative-binomial and Poisson trials may
draw 0 on both sides and normal draws may be nonpositive. -/
theorem C8_amended (mcH mcA : List ℚ) (nbH nbA poH poA : List ℕ)
    (hs as_ target : ℚ) (lg : String)
    (hmc : List.zipWith (· + ·) mcH mcA ≠ [])
    (hnb : List.zipWith (· + ·) nbH nbA ≠ [])
    (hpo : List.zipWith (· + ·) poH poA ≠ []) :
    ((∀ x ∈ List.zipWith (· + ·) mcH mcA, target < x) →
      (run_probability_models (listSamplers mcH mcA nbH nbA poH poA)
        hs as_ target lg).mc_prob = 100) ∧
    ((∀ x ∈ List.zipWith (· + ·) mcH mcA, x ≤ target) →
      (run_probability_models (listSamplers mcH mcA nbH nbA poH poA)
        hs as_ target lg).mc_prob = 0) ∧
    ((∀ n : ℕ, n ∈ List.zipWith (· + ·) nbH nbA → target < (n : ℚ)) →
      (run_probability_models (listSamplers mcH mcA nbH nbA poH poA)
        hs as_ target lg).nb_prob = 100) ∧
    ((∀ n : ℕ, n ∈ List.zipWith (· + ·) nbH nbA → (n : ℚ) ≤ target) →
      (run_probability_models (listSamplers mcH mcA nbH nbA poH poA)
        hs as_ target lg).nb_prob = 0) ∧
    ((∀ n : ℕ, n ∈ List.zipWith (· + ·) poH poA → target < (n : ℚ)) →
      (run_probability_models (listSamplers mcH mcA nbH nbA poH poA)
        hs as_ target lg).poisson_prob = 100) ∧
    ((∀ n : ℕ, n ∈ List.zipWith (· + ·) poH poA → (n : ℚ) ≤ target) →
      (run_probability_models (listSamplers mcH mcA nbH nbA poH poA)
        hs as_ target lg).poisson_prob = 0) ∧
    ((run_probability_models (listSamplers mcH mcA nbH nbA poH poA)
        hs as_ target lg).mc_prob = 100 →
      ∀ x ∈ List.zipWith (· + ·) mcH mcA, target < x) ∧
    ((run_probability_models (listSamplers mcH mcA nbH nbA poH poA)
        hs as_ target lg).nb_prob = 100 →
      ∀ n : ℕ, n ∈ List.zipWith (· + ·) nbH nbA → target < (n : ℚ)) ∧
    ((run_probability_models (listSamplers mcH mcA nbH nbA poH poA)
        hs as_ target lg).poisson_prob = 100 →
      ∀ n : ℕ, n ∈ List.zipWith (· + ·) poH poA → target < (n : ℚ)) := by
  rw [run_probability_models_listSamplers]
  exact ⟨fun h => meanGtQ_eq_100 _ _ hmc h, fun h => meanGtQ_eq_0 _ _ h,
    fun h => meanGtN_eq_100 _ _ hnb h, fun h => meanGtN_eq_0 _ _ h,
    fun h => meanGtN_eq_100 _ _ hpo h, fun h => meanGtN_eq_0 _ _ h,
    (meanGtQ_eq_100_iff _ _ hmc).mp, (meanGtN_eq_100_iff _ _ hnb).mp,
    (meanGtN_eq_100_iff _ _ hpo).mp⟩

/-- C8 witness: with draws summing to 11 (Monte Carlo), 5 (negative
binomial) and 2 (Poisson) and target 1 below all of them, all three
sub-probabilities are 100; the same draws with target 20 above all of them
give 0. -/
theorem C8_witness :
    (run_probability_models (listSamplers [5] [6] [2] [3] [1] [1]) 2 3 1 "NPB").mc_prob
        = 100 ∧
    (run_probability_models (listSamplers [5] [6] [2] [3] [1] [1]) 2 3 1 "NPB").nb_prob
        = 100 ∧
    (run_probability_models (listSamplers [5] [6] [2] [3] [1] [1]) 2 3 1 "NPB").poisson_prob
        = 100 ∧
    (run_probability_models (listSamplers [5] [6] [2] [3] [1] [1]) 2 3 20 "NPB").mc_prob
        = 0 ∧
    (run_probability_models (listSamplers [5] [6] [2] [3] [1] [1]) 2 3 20 "NPB").nb_prob
        = 0 ∧
    (run_probability_models (listSamplers [5] [6] [2] [3] [1] [1]) 2 3 20 "NPB").poisson_prob
        = 0 := by
  have hlow := C8_amended [5] [6] [2] [3] [1] [1] 2 3 1 "NPB"
    (by simp [List.zipWith]) (by simp [List.zipWith]) (by simp [List.zipWith])
  have hhigh := C8_amended [5] [6] [2] [3] [1] [1] 2 3 20 "NPB"
    (by simp [List.zipWith]) (by simp [List.zipWith]) (by simp [List.zipWith])
  refine ⟨hlow.1 ?_, hlow.2.2.1 ?_, hlow.2.2.2.2.1 ?_,
    hhigh.2.1 ?_, hhigh.2.2.2.1 ?_, hhigh.2.2.2.2.2.1 ?_⟩ <;>
    (intro x hx
     simp only [List.zipWith, List.mem_singleton] at hx
     subst hx
     norm_num)

/-- C3 counterexample: the Streamlit front end's `run_models` has no
exception handler — when a model computation fails, the failure propagates
to the caller instead of becoming the neutral all-50 result. -/
theorem C3_counterexample :
    run_models failSamplers 3 4 7.5 "KBO" = Except.error () ∧
    run_models failSamplers 3 4 7.5 "KBO" ≠
      Except.ok (50.0, 50.0, 50.0, 50.0) := by
  refine ⟨rfl, ?_⟩
  rw [show run_models failSamplers 3 4 7.5 "KBO" = Except.error () from rfl]
  simp

/-- C3 amended: when a model computation inside the engine fails, the
console engine `run_probability_models` absorbs the failure and returns the
neutral result with all four probabilities 50.0, but the Streamlit engine
`run_models` propagates the same failure to its caller. -/
theorem C3_amended (S : Samplers) (hs as_ target : ℚ) (league : String) (e : Unit)
    (hfail : run_probability_models_body S hs as_ target league = Except.error e) :
    run_probability_models S hs as_ target league = neutralResult ∧
    run_models S hs as_ target league = Except.error e := by
  constructor
  · unfold run_probability_models
    rw [hfail]
  · rw [run_models_eq_body_map, hfail]
    rfl

/-- C3 witness: samplers whose first draw fails make the console engine
return the neutral all-50 record while the Streamlit engine returns the
propagated error. -/
theorem C3_witness :
    run_probability_models failSamplers 4 4 8 "NPB" = neutralResult ∧
    run_models failSamplers 4 4 8 "NPB" = Except.error () :=
  C3_amended failSamplers 4 4 8 "NPB" () rfl
